import Mathlib

/-!
Verification development for the Personal Ephemeris program
(src/ephemeris.py).  The program is a thin orchestration layer over the
PyEphem astronomy library; the library itself (orbital mechanics,
rise/set solving, angular separation, time conversion) is treated as an
abstract collaborator and modelled by explicit oracle parameters.  The
original decision logic of the program -- visibility branching, the
circumpolar label substitutions, lunation quartile classification, the
city-lookup fallback, the comet display filter, the date-argument
handling and the conjunction scan -- is embedded faithfully below, and
the formatting helpers mirror the Python format strings they come from.

Numeric conventions: Python floats are modelled as exact rationals, and
the float constant math.pi is modelled by the exact rational value of
the IEEE-754 double that Python uses for it.
-/

namespace Ephemeris

/-- Exact rational value of the IEEE-754 double math.pi used by the
Python source when converting radians to degrees and hours. -/
def piQ : ℚ := 884279719003555 / 281474976710656

/-- Truncation toward zero, the semantics of the Python builtin int()
applied to a float. -/
def pyInt (q : ℚ) : Int := if q < 0 then ⌈q⌉ else ⌊q⌋

/-- Left-pad a string to the given width with the given character,
as Python right-aligned format fields do. -/
def padLeft (s : String) (w : Nat) (c : Char) : String :=
  String.mk (List.replicate (w - s.length) c) ++ s

/-- Right-pad a string to the given width with the given character,
as Python left-aligned format fields do. -/
def padRight (s : String) (w : Nat) (c : Char) : String :=
  s ++ String.mk (List.replicate (w - s.length) c)

/-- The Python format field 02d applied to a nonnegative integer. -/
def pad2 (n : Nat) : String := padLeft (toString n) 2 '0'

/-- The Python format field 02d applied to a possibly negative integer:
the sign comes first and counts toward the width. -/
def zfill2 (n : Int) : String :=
  if n < 0 then "-" ++ padLeft (toString n.natAbs) 1 '0'
  else padLeft (toString n.natAbs) 2 '0'

/-- Round-half-to-even at integer precision, the rounding used by the
Python float format fields .0f and 5.1f. -/
def roundHalfEven (q : ℚ) : Int :=
  let f := ⌊q⌋
  let r := q - (f : ℚ)
  if r < 1/2 then f
  else if 1/2 < r then f + 1
  else if f % 2 = 0 then f else f + 1

/-- A local calendar timestamp, the result of the library call
ephem.localtime applied to an ephem date.  Only the fields that the
program formats are modelled. -/
structure DateTime where
  month : Nat
  day : Nat
  year : Nat
  hour : Nat
  minute : Nat
  second : Nat
deriving DecidableEq

/-- Model of the source function fmt_datetime: format a datetime as
day/month plus hour:minute, each field zero-padded to width two. -/
def fmt_datetime (dttm : DateTime) : String :=
  pad2 dttm.month ++ "/" ++ pad2 dttm.day ++ " " ++ pad2 dttm.hour ++ ":" ++ pad2 dttm.minute

/-- Degree part of the source function fmt_angle: the input angle in
radians is converted to degrees with math.pi and truncated toward zero
by the Python builtin int(). -/
def degOf (a : ℚ) : Int := pyInt (180 * a / piQ)

/-- Minute part of the source function fmt_angle: the fractional degree
part is scaled to minutes, shifted by one half and truncated toward
zero, which rounds to the nearest minute with no carry into degrees. -/
def minOf (a : ℚ) : Int :=
  pyInt ((180 * a / piQ - (degOf a : ℚ)) * 60 + 1/2)

/-- Model of the source function fmt_angle: render an angle given in
radians as dd:mm using the format fields 3d and 02d. -/
def fmt_angle (a : ℚ) : String :=
  padLeft (toString (degOf a)) 3 ' ' ++ ":" ++ zfill2 (minOf a)

/-- Model of the source function fmt_ra: render a right ascension angle
given in radians as hours and minutes, where the minutes go through the
Python float format field .0f, modelled as round-half-to-even. -/
def fmt_ra (angle : ℚ) : String :=
  let hf := 12 * angle / piQ
  let h := pyInt hf
  let m := (hf - (h : ℚ)) * 60
  padLeft (toString h) 2 ' ' ++ "h" ++ toString (roundHalfEven m) ++ "m"

/-- The Python format field 5.1f used for magnitudes: one decimal digit,
rounded half to even, right-aligned in width five. -/
def fmt51f (q : ℚ) : String :=
  let n := roundHalfEven (q * 10)
  let s := (if n < 0 then "-" else "") ++ toString (n.natAbs / 10) ++ "." ++ toString (n.natAbs % 10)
  padLeft s 5 ' '

/-- The Python format field .<19.19s used for body names: truncate to
nineteen characters and pad on the right with dots to width nineteen. -/
def fmtName (s : String) : String := padRight (s.take 19) 19 '.'

/-- Failures raised by the library rise/set solvers.  In PyEphem the
classes AlwaysUpError and NeverUpError are both subclasses of
CircumpolarError; any other failure is modelled by the third
constructor. -/
inductive SolverErr where
  | alwaysUp : SolverErr
  | neverUp : SolverErr
  | other : String → SolverErr
deriving DecidableEq

/-- Whether a solver failure is an instance of the library class
CircumpolarError, the only class caught by the source. -/
def isCircumpolar : SolverErr → Bool
  | .alwaysUp => true
  | .neverUp => true
  | .other _ => false

deriving instance DecidableEq for Except

/-- Oracle bundling the three rise/set library queries that
print_visinfo can issue for one body against one observer context,
already composed with ephem.localtime.  Each query either yields a
local timestamp or fails like the library solver. -/
structure RiseSetOracle where
  previousRising : Except SolverErr DateTime
  nextRising : Except SolverErr DateTime
  nextSetting : Except SolverErr DateTime
deriving DecidableEq

/-- Observational quantities of a body as computed by the library call
body.compute at the observer context and time of interest.  Angles are
in radians as in the library. -/
structure BodySnapshot where
  name : String
  alt : ℚ
  az : ℚ
  mag : ℚ
  ra : ℚ
  dec : ℚ
deriving DecidableEq

/-- One output table row of print_visinfo: the branch taken and the
strings interpolated into the row format.  In the not-visible branch
the altitude, azimuth, magnitude, right ascension and declination
cells are the dash placeholders of the source format string. -/
structure VisRow where
  name : String
  visible : Bool
  altF : String
  azF : String
  riseF : String
  setF : String
  magF : String
  raF : String
  decF : String
deriving DecidableEq

/-- Visibility marker word of a row, Yes in the above-horizon branch
and No in the below-horizon branch of the source format strings. -/
def visMarker (r : VisRow) : String := if r.visible then "Yes" else "No"

/-- Render a VisRow exactly as the source print statements lay it out:
the dot-padded name, the marker cell, then pipe-separated cells. -/
def renderRow (r : VisRow) : String :=
  fmtName r.name ++ (if r.visible then "| Yes | " else "| No  | ") ++
    r.altF ++ " | " ++ r.azF ++ " | " ++ r.riseF ++ " | " ++ r.setF ++ " | " ++
    r.magF ++ " | " ++ r.raF ++ " | " ++ r.decF ++ " |"

/-- Model of one try/except block of print_visinfo: format the queried
time, but if the query failed with a CircumpolarError substitute the
given label; any other failure propagates. -/
def tryCircumpolar (q : Except SolverErr DateTime) (lbl : String) : Except SolverErr String :=
  match q with
  | .ok t => .ok (fmt_datetime t)
  | .error e => if isCircumpolar e then .ok lbl else .error e

/-- Model of the source function print_visinfo.  If the body altitude
is strictly positive the above-horizon branch runs: previous rising and
next setting are queried with circumpolar guards and a visible row is
produced.  Otherwise next rising and next setting are queried with no
guard at all, so any solver failure propagates, and a not-visible row
with dash placeholder cells is produced. -/
def print_visinfo (body : BodySnapshot) (o : RiseSetOracle) : Except SolverErr VisRow :=
  if 0 < body.alt then
    match tryCircumpolar o.previousRising "already up " with
    | .error e => .error e
    | .ok r_time =>
      match tryCircumpolar o.nextSetting "doesn\x27t set" with
      | .error e => .error e
      | .ok s_time =>
        .ok ⟨body.name, true, fmt_angle body.alt, fmt_angle body.az,
             r_time, s_time, fmt51f body.mag, fmt_ra body.ra, fmt_angle body.dec⟩
  else
    match o.nextRising with
    | .error e => .error e
    | .ok tr =>
      match o.nextSetting with
      | .error e => .error e
      | .ok ts =>
        .ok ⟨body.name, false, "  --- ", "  --- ",
             fmt_datetime tr, fmt_datetime ts, " --- ", " ---- ", " ---- "⟩

/-- Python exception values relevant to the city lookup code paths. -/
inductive PyErr where
  | keyError : String → PyErr
  | valueError : String → PyErr
  | otherError : String → PyErr
deriving DecidableEq

/-- One value of the extra-city table built from the configuration
file: latitude and longitude as strings plus a numeric elevation,
exactly the triple the source stores. -/
structure CityData where
  lat : String
  lon : String
  elevation : ℚ
deriving DecidableEq

/-- Observer context fields set by additional_city.  The pressure
computed by the library call compute_pressure from the elevation is
library behavior and carries no information beyond the elevation, so it
is not modelled separately. -/
structure Observer where
  name : String
  lat : ℚ
  lon : ℚ
  elevation : ℚ
deriving DecidableEq

/-- Model of the source function additional_city: a missing table entry
raises KeyError; otherwise the latitude and longitude strings are
parsed by the library attribute setters of ephem.Observer, modelled by
the parseAngle oracle, whose failure raises ValueError. -/
def additional_city (table : String → Option CityData) (parseAngle : String → Option ℚ)
    (name : String) : Except PyErr Observer :=
  match table name with
  | none => .error (.keyError ("Unknown city: \x27" ++ name ++ "\x27"))
  | some d =>
    match parseAngle d.lat with
    | none => .error (.valueError d.lat)
    | some la =>
      match parseAngle d.lon with
      | none => .error (.valueError d.lon)
      | some lo => .ok ⟨name, la, lo, d.elevation⟩

/-- Outcome of the city resolution code at top level: either an
observer was found, or the program printed the not-found diagnostic and
called exit with the recorded status code. -/
inductive LookupOutcome where
  | found : Observer → LookupOutcome
  | notFoundExit : String → Nat → LookupOutcome
deriving DecidableEq

/-- Model of the top-level city resolution: try the library builtin
city database, on KeyError fall back to additional_city, and on any
failure of the fallback (the source uses a bare except clause) print
the diagnostic and exit with status zero.  A non-KeyError failure of
the builtin lookup is not caught and propagates. -/
def cityLookup (builtin : String → Except PyErr Observer)
    (table : String → Option CityData) (parseAngle : String → Option ℚ)
    (name : String) : Except PyErr LookupOutcome :=
  match builtin name with
  | .ok o => .ok (.found o)
  | .error (.keyError _) =>
    match additional_city table parseAngle name with
    | .ok o => .ok (.found o)
    | .error _ =>
      .ok (.notFoundExit ("City \x27" ++ name ++ "\x27 not found in global or local list") 0)
  | .error e => .error e

/-- Model of the date-argument handling at the top level: the Python
test on args.date is a truthiness test, so the wall clock is read both
when no date argument is given and when the given date string is
empty. -/
def resolveNow (dateArg : Option String) (parseDate : String → ℚ) (clock : ℚ) : ℚ :=
  match dateArg with
  | some s => if s = "" then clock else parseDate s
  | none => clock

/-- Everything the program prints after the observation time is fixed
is a function of that time (and of the configuration and city, which
the render parameter closes over): the source sets site.date to now and
never consults the clock again. -/
def reportLines (render : ℚ → List String) (dateArg : Option String)
    (parseDate : String → ℚ) (clock : ℚ) : List String :=
  render (resolveNow dateArg parseDate clock)

/-- Model of the lunation computed at the top level: normalized
position of now between the previous and the next new moon. -/
def lunation (now prev_new next_new : ℚ) : ℚ :=
  (now - prev_new) / (next_new - prev_new)

/-- The four named lunar phases reported by the was-just line. -/
inductive MoonPhase where
  | newMoon : MoonPhase
  | firstQuarter : MoonPhase
  | fullMoon : MoonPhase
  | lastQuarter : MoonPhase
deriving DecidableEq

/-- Model of the if/elif chain classifying the most recently completed
lunar phase from the lunation value. -/
def classifyLunation (l : ℚ) : MoonPhase :=
  if l < 1/4 then .newMoon
  else if l < 1/2 then .firstQuarter
  else if l < 3/4 then .fullMoon
  else .lastQuarter

/-- Phase name interpolated into the was-just output line. -/
def phaseLabel : MoonPhase → String
  | .newMoon => "New Moon"
  | .firstQuarter => "First Quarter"
  | .fullMoon => "Full Moon"
  | .lastQuarter => "Last Quarter"

/-- A body as seen by the conjunction scan: only the name and the
already evaluated azimuth and altitude are consulted. -/
structure ConjBody where
  name : String
  az : ℚ
  alt : ℚ
deriving DecidableEq

/-- Placeholder body used for the List.getD defaults; the scan only
indexes within bounds so it is never consulted. -/
def noBody : ConjBody := ⟨"", 0, 0⟩

/-- The separation threshold of the scan: fifteen degrees converted to
radians with the float constant math.pi, as in the source. -/
def threshold : ℚ := 15 * piQ / 180

/-- Section header printed lazily before the first qualifying pair. -/
def conjHeader : String := "\n*** Close Approaches (may not be visible) ***"

/-- One qualifying pair output line: both names in left-justified
width-seven fields, then the separation formatted as dd:mm. -/
def conjLine (bi bj : ConjBody) (sep : ℚ) : String :=
  padRight bi.name 7 ' ' ++ " to " ++ padRight bj.name 7 ' ' ++ " = " ++
    fmt_angle sep ++ " (dd:mm)"

/-- Separation computed for an index pair: the library function
ephem.separation applied to the azimuth/altitude tuples of the two
bodies, abstracted as the sep oracle. -/
def sepAt (sep : ℚ × ℚ → ℚ × ℚ → ℚ) (bodies : List ConjBody) (p : Nat × Nat) : ℚ :=
  sep ((bodies.getD p.1 noBody).az, (bodies.getD p.1 noBody).alt)
    ((bodies.getD p.2 noBody).az, (bodies.getD p.2 noBody).alt)

/-- Index pairs visited by the the two nested Python loops, in the
order they are visited: i over range n, then j over range from i plus
one to n. -/
def conjPairs (n : Nat) : List (Nat × Nat) :=
  (List.range n).flatMap fun i => (List.range' (i+1) (n - (i+1))).map fun j => (i, j)

/-- Loop state of the conjunction scan: the count of qualifying pairs
seen so far and the lines printed so far. -/
structure ConjState where
  count : Nat
  out : List String
deriving DecidableEq

/-- Loop body of the conjunction scan for one index pair: if the
separation is strictly below the threshold, print the header first
when the count is still zero, print the pair line and increment the
count; otherwise do nothing. -/
def conjStep (sep : ℚ × ℚ → ℚ × ℚ → ℚ) (bodies : List ConjBody)
    (st : ConjState) (p : Nat × Nat) : ConjState :=
  let s := sepAt sep bodies p
  if s < threshold then
    ⟨st.count + 1,
     st.out ++ (if st.count = 0 then [conjHeader] else []) ++
       [conjLine (bodies.getD p.1 noBody) (bodies.getD p.2 noBody) s]⟩
  else st

/-- Model of the conjunction scan loop: fold the loop body over the
visited index pairs starting from count zero and no output. -/
def conjScan (sep : ℚ × ℚ → ℚ × ℚ → ℚ) (bodies : List ConjBody) : List String :=
  ((conjPairs bodies.length).foldl (conjStep sep bodies) ⟨0, []⟩).out

/-- Modelled from the spec wording for comparison with conjScan: the
list of index pairs whose computed separation is strictly below the
threshold, in increasing index order. -/
def conjQualifying (sep : ℚ × ℚ → ℚ × ℚ → ℚ) (bodies : List ConjBody) : List (Nat × Nat) :=
  (conjPairs bodies.length).filter fun p => decide (sepAt sep bodies p < threshold)

/-- The pair line emitted for a visited index pair. -/
def conjLineOf (sep : ℚ × ℚ → ℚ × ℚ → ℚ) (bodies : List ConjBody) (p : Nat × Nat) : String :=
  conjLine (bodies.getD p.1 noBody) (bodies.getD p.2 noBody) (sepAt sep bodies p)

/-- One configured comet entry: the display flag and the orbital
element string handed to ephem.readdb when the flag is set. -/
structure CometEntry where
  display : Bool
  db_info : String
deriving DecidableEq

/-- Model of the comet loop of the special-objects section.  For each
entry whose display flag is set, the db_info string is parsed by the
library (the readdb oracle) and the resulting body is evaluated and
printed (the evalBody oracle, standing for print_visinfo against the
site); any failure propagates out of the loop.  Entries whose flag is
unset are skipped entirely.  The first component of the result is the
trace of strings actually handed to readdb. -/
def cometLoop (readdb : String → Except PyErr BodySnapshot)
    (evalBody : BodySnapshot → Except PyErr VisRow) :
    List CometEntry → List String × Except PyErr (List VisRow)
  | [] => ([], .ok [])
  | e :: rest =>
    if e.display then
      match readdb e.db_info with
      | .error err => ([e.db_info], .error err)
      | .ok b =>
        match evalBody b with
        | .error err => ([e.db_info], .error err)
        | .ok row =>
          let r := cometLoop readdb evalBody rest
          (e.db_info :: r.1, r.2.map (row :: ·))
    else cometLoop readdb evalBody rest

/-- Input angle for the fmt_angle rounding example: twenty-nine degrees
and 59.6 minutes, expressed in radians using the same rational model of
math.pi that fmt_angle divides by, so that the degree value recovered
inside fmt_angle is exactly 4499/150. -/
def c10_input : ℚ := 4499 * piQ / 27000

/-- Body fixture for the visibility witnesses: altitude exactly zero. -/
def bodyHorizon : BodySnapshot := ⟨"Sun", 0, 0, 0, 0, 0⟩

/-- Oracle fixture for the visibility witnesses: all queries succeed. -/
def oracleOk : RiseSetOracle :=
  ⟨.ok ⟨3, 24, 2024, 18, 10, 0⟩, .ok ⟨3, 25, 2024, 6, 54, 0⟩, .ok ⟨3, 25, 2024, 18, 55, 0⟩⟩

/-- Row produced by print_visinfo on the horizon fixture. -/
def rowHorizon : VisRow :=
  ⟨"Sun", false, "  --- ", "  --- ", "03/25 06:54", "03/25 18:55", " --- ", " ---- ", " ---- "⟩

/-- Body fixture for the circumpolar witness: altitude one radian. -/
def bodyCircum : BodySnapshot := ⟨"Polar", 1, 2, 3, 1, 1⟩

/-- Oracle fixture for the circumpolar witness: the previous-rising
query fails with AlwaysUpError and the next-setting query fails with
NeverUpError, both circumpolar signals. -/
def oracleCircum : RiseSetOracle :=
  ⟨.error .alwaysUp, .ok ⟨1, 1, 2024, 0, 0, 0⟩, .error .neverUp⟩

/-- Oracle fixture for the below-horizon propagation witness: the
next-rising query fails with the NeverUpError circumpolar signal. -/
def oracleNeverUp : RiseSetOracle :=
  ⟨.ok ⟨1, 1, 2024, 0, 0, 0⟩, .error .neverUp, .ok ⟨1, 1, 2024, 0, 0, 0⟩⟩

theorem tryCircumpolar_error_eq (e : SolverErr) (lbl : String) :
    tryCircumpolar (.error e) lbl = if isCircumpolar e then .ok lbl else .error e := rfl

theorem mem_slash_fmt_datetime (t : DateTime) : '/' ∈ (fmt_datetime t).data := by
  rw [fmt_datetime]
  simp [String.data_append]

theorem fmt_datetime_ne_alreadyUp (t : DateTime) : fmt_datetime t ≠ "already up " := by
  intro h
  exact absurd (h ▸ mem_slash_fmt_datetime t) (by decide)

theorem fmt_datetime_ne_noSet (t : DateTime) : fmt_datetime t ≠ "doesn\x27t set" := by
  intro h
  exact absurd (h ▸ mem_slash_fmt_datetime t) (by decide)

/-- Claim C2: for every body passed to the visibility reporter, the
emitted row is marked visible exactly when the computed altitude is
strictly greater than zero, and a body with altitude exactly zero takes
the not-visible branch, whose altitude, azimuth, magnitude, right
ascension and declination cells are the dash placeholders. -/
theorem visible_iff_alt_pos (b : BodySnapshot) (o : RiseSetOracle) (row : VisRow)
    (h : print_visinfo b o = .ok row) :
    (visMarker row = "Yes" ↔ 0 < b.alt) ∧
    (b.alt = 0 → visMarker row = "No" ∧ row.altF = "  --- " ∧ row.azF = "  --- " ∧
      row.magF = " --- " ∧ row.raF = " ---- " ∧ row.decF = " ---- ") := by
  by_cases halt : 0 < b.alt
  · rw [print_visinfo, if_pos halt] at h
    rcases hq : tryCircumpolar o.previousRising "already up " with e | r <;> rw [hq] at h
    · exact absurd h (by simp)
    rcases hs : tryCircumpolar o.nextSetting "doesn\x27t set" with e | s <;> rw [hs] at h
    · exact absurd h (by simp)
    injection h with h2
    subst h2
    refine ⟨by simp [visMarker, halt], fun h0 => absurd (h0 ▸ halt) (lt_irrefl 0)⟩
  · rw [print_visinfo, if_neg halt] at h
    rcases hq : o.nextRising with e | tr <;> rw [hq] at h
    · exact absurd h (by simp)
    rcases hs : o.nextSetting with e | ts <;> rw [hs] at h
    · exact absurd h (by simp)
    injection h with h2
    subst h2
    exact ⟨by simp [visMarker, halt], fun _ => ⟨rfl, rfl, rfl, rfl, rfl, rfl⟩⟩

/-- Claim C2 witness at a concrete input with altitude exactly zero. -/
theorem visible_iff_alt_pos_witness :
    print_visinfo bodyHorizon oracleOk = .ok rowHorizon ∧
    ((visMarker rowHorizon = "Yes" ↔ 0 < bodyHorizon.alt) ∧
     (bodyHorizon.alt = 0 → visMarker rowHorizon = "No" ∧ rowHorizon.altF = "  --- " ∧
       rowHorizon.azF = "  --- " ∧ rowHorizon.magF = " --- " ∧ rowHorizon.raF = " ---- " ∧
       rowHorizon.decF = " ---- ")) :=
  ⟨by decide, visible_iff_alt_pos bodyHorizon oracleOk rowHorizon (by decide)⟩

/-- Claim C3: in the above-horizon branch, a circumpolar failure of the
previous-rising query makes the rise cell the literal label already up,
a circumpolar failure of the next-setting query makes the set cell the
literal label doesn\x27t set, and neither label is the timestamp
rendering of any concrete time. -/
theorem circumpolar_labels (b : BodySnapshot) (o : RiseSetOracle) (halt : 0 < b.alt) :
    (∀ (row : VisRow) (e : SolverErr), print_visinfo b o = .ok row →
      o.previousRising = .error e → isCircumpolar e = true → row.riseF = "already up ") ∧
    (∀ (row : VisRow) (e : SolverErr), print_visinfo b o = .ok row →
      o.nextSetting = .error e → isCircumpolar e = true → row.setF = "doesn\x27t set") ∧
    (∀ t : DateTime, fmt_datetime t ≠ "already up ") ∧
    (∀ t : DateTime, fmt_datetime t ≠ "doesn\x27t set") := by
  refine ⟨?_, ?_, fmt_datetime_ne_alreadyUp, fmt_datetime_ne_noSet⟩
  · intro row e h hpr hc
    rw [print_visinfo, if_pos halt] at h
    rw [hpr, tryCircumpolar_error_eq, hc, if_pos rfl] at h
    rcases hs : tryCircumpolar o.nextSetting "doesn\x27t set" with e2 | s <;> rw [hs] at h
    · exact absurd h (by simp)
    injection h with h2
    subst h2
    rfl
  · intro row e h hns hc
    rw [print_visinfo, if_pos halt] at h
    rcases hq : tryCircumpolar o.previousRising "already up " with e2 | r <;> rw [hq] at h
    · exact absurd h (by simp)
    rw [hns, tryCircumpolar_error_eq, hc, if_pos rfl] at h
    injection h with h2
    subst h2
    rfl

/-- Claim C3 witness at a concrete circumpolar input. -/
theorem circumpolar_labels_witness :
    0 < bodyCircum.alt ∧
    print_visinfo bodyCircum oracleCircum =
      .ok ⟨"Polar", true, fmt_angle 1, fmt_angle 2, "already up ", "doesn\x27t set",
           fmt51f 3, fmt_ra 1, fmt_angle 1⟩ ∧
    ((∀ (row : VisRow) (e : SolverErr), print_visinfo bodyCircum oracleCircum = .ok row →
        oracleCircum.previousRising = .error e → isCircumpolar e = true →
        row.riseF = "already up ") ∧
     (∀ (row : VisRow) (e : SolverErr), print_visinfo bodyCircum oracleCircum = .ok row →
        oracleCircum.nextSetting = .error e → isCircumpolar e = true →
        row.setF = "doesn\x27t set") ∧
     (∀ t : DateTime, fmt_datetime t ≠ "already up ") ∧
     (∀ t : DateTime, fmt_datetime t ≠ "doesn\x27t set")) :=
  ⟨by decide, rfl, circumpolar_labels bodyCircum oracleCircum (by decide)⟩

/-- Claim C4: in the below-horizon branch the next-rising and
next-setting queries carry no circumpolar guard, so any solver failure
there, including the NeverUpError raised for a body that never rises,
propagates out of print_visinfo instead of being replaced by a label,
and no row is produced. -/
theorem below_horizon_propagates (b : BodySnapshot) (o : RiseSetOracle) (e : SolverErr)
    (halt : b.alt ≤ 0) :
    (o.nextRising = .error e → print_visinfo b o = .error e) ∧
    (∀ t : DateTime, o.nextRising = .ok t → o.nextSetting = .error e →
      print_visinfo b o = .error e) := by
  have h0 : ¬ 0 < b.alt := not_lt.mpr halt
  constructor
  · intro hr
    rw [print_visinfo, if_neg h0, hr]
  · intro t hr hs
    rw [print_visinfo, if_neg h0, hr, hs]

/-- Claim C4 witness: a body at altitude zero whose next-rising query
fails with the circumpolar NeverUpError signal. -/
theorem below_horizon_propagates_witness :
    bodyHorizon.alt ≤ 0 ∧
    isCircumpolar SolverErr.neverUp = true ∧
    ((oracleNeverUp.nextRising = .error .neverUp →
        print_visinfo bodyHorizon oracleNeverUp = .error .neverUp) ∧
     (∀ t : DateTime, oracleNeverUp.nextRising = .ok t →
        oracleNeverUp.nextSetting = .error .neverUp →
        print_visinfo bodyHorizon oracleNeverUp = .error .neverUp)) :=
  ⟨by decide, by decide, below_horizon_propagates bodyHorizon oracleNeverUp .neverUp (by decide)⟩

/-- Claim C6: when the requested city is found neither in the library
builtin database (a KeyError) nor in the extra-city table, the program
prints the not-found diagnostic with the requested name interpolated
and exits with status zero, propagating no error. -/
theorem unknown_city_diagnostic (builtin : String → Except PyErr Observer)
    (table : String → Option CityData) (parseAngle : String → Option ℚ)
    (name m : String)
    (hb : builtin name = .error (.keyError m)) (ht : table name = none) :
    cityLookup builtin table parseAngle name =
      .ok (.notFoundExit ("City \x27" ++ name ++ "\x27 not found in global or local list") 0) := by
  rw [cityLookup.eq_def, hb, additional_city.eq_def, ht]

/-- Claim C6 witness at the concrete city name Nowhereville. -/
theorem unknown_city_diagnostic_witness :
    ((fun _ : String => (Except.error (PyErr.keyError "Unknown city") : Except PyErr Observer))
        "Nowhereville" = .error (.keyError "Unknown city")) ∧
    ((fun _ : String => (none : Option CityData)) "Nowhereville" = none) ∧
    cityLookup (fun _ => .error (.keyError "Unknown city")) (fun _ => none) (fun _ => none)
        "Nowhereville" =
      .ok (.notFoundExit "City \x27Nowhereville\x27 not found in global or local list" 0) :=
  ⟨rfl, rfl,
    unknown_city_diagnostic (fun _ => .error (.keyError "Unknown city")) (fun _ => none)
      (fun _ => none) "Nowhereville" "Unknown city" rfl rfl⟩

/-- Claim C9: the fallback around additional_city is a bare except
clause, so a city that is present in the extra-city table but whose
latitude string the library cannot parse (a ValueError, not a KeyError)
still ends in the not-found diagnostic and a clean exit with status
zero rather than a propagated error. -/
theorem malformed_city_entry_caught (builtin : String → Except PyErr Observer)
    (table : String → Option CityData) (parseAngle : String → Option ℚ)
    (name m : String) (d : CityData)
    (hb : builtin name = .error (.keyError m)) (ht : table name = some d)
    (hp : parseAngle d.lat = none) :
    cityLookup builtin table parseAngle name =
      .ok (.notFoundExit ("City \x27" ++ name ++ "\x27 not found in global or local list") 0) := by
  have ha : additional_city table parseAngle name = .error (.valueError d.lat) := by
    rw [additional_city.eq_def, ht]
    simp only [hp]
  rw [cityLookup.eq_def, hb, ha]

/-- Claim C9 witness: a table entry with an unparsable latitude. -/
theorem malformed_city_entry_caught_witness :
    ((fun _ : String => (Except.error (PyErr.keyError "Unknown city") : Except PyErr Observer))
        "Los Gatos" = .error (.keyError "Unknown city")) ∧
    ((fun _ : String => some (⟨"not a latitude", "-121.9", 100⟩ : CityData)) "Los Gatos" =
        some ⟨"not a latitude", "-121.9", 100⟩) ∧
    ((fun _ : String => (none : Option ℚ)) ("not a latitude" : String) = none) ∧
    cityLookup (fun _ => .error (.keyError "Unknown city"))
        (fun _ => some ⟨"not a latitude", "-121.9", 100⟩) (fun _ => none) "Los Gatos" =
      .ok (.notFoundExit "City \x27Los Gatos\x27 not found in global or local list" 0) :=
  ⟨rfl, rfl, rfl,
    malformed_city_entry_caught (fun _ => .error (.keyError "Unknown city"))
      (fun _ => some ⟨"not a latitude", "-121.9", 100⟩) (fun _ => none)
      "Los Gatos" "Unknown city" ⟨"not a latitude", "-121.9", 100⟩ rfl rfl rfl⟩

/-- Claim C8 counterexample: the claim as stated fails for the
explicitly supplied empty date string, because the source guards the
date branch with a Python truthiness test.  With the same configuration
and the same explicit date argument, two runs at different wall-clock
instants produce different output. -/
theorem date_empty_counterexample :
    reportLines (fun q => [if q = 0 then "run at t0" else "run at t1"]) (some "")
        (fun _ => 42) 0 ≠
      reportLines (fun q => [if q = 0 then "run at t0" else "run at t1"]) (some "")
        (fun _ => 42) 1 := by decide

/-- Claim C8 as amended: once a NON-EMPTY date argument is supplied, no
branch of the program reads the wall clock: the observation time is the
parsed argument, so the rendered report is independent of the clock. -/
theorem date_determinism (render : ℚ → List String) (parseDate : String → ℚ)
    (s : String) (clock1 clock2 : ℚ) (hs : s ≠ "") :
    reportLines render (some s) parseDate clock1 =
      reportLines render (some s) parseDate clock2 ∧
    resolveNow (some s) parseDate clock1 = parseDate s := by
  simp [reportLines, resolveNow, hs]

/-- Claim C8 witness at the concrete date string of the spec example. -/
theorem date_determinism_witness :
    ("2024/03/25 04:00" : String) ≠ "" ∧
    (reportLines (fun q => [if q = 0 then "run at t0" else "run at t1"])
        (some "2024/03/25 04:00") (fun _ => 42) 0 =
      reportLines (fun q => [if q = 0 then "run at t0" else "run at t1"])
        (some "2024/03/25 04:00") (fun _ => 42) 1 ∧
     resolveNow (some "2024/03/25 04:00") (fun _ => 42) 0 = 42) :=
  ⟨by decide,
    date_determinism (fun q => [if q = 0 then "run at t0" else "run at t1"])
      (fun _ => 42) "2024/03/25 04:00" 0 1 (by decide)⟩

/-- Claim C5: whenever the previous new moon is not after now and now
is strictly before the next new moon, the lunation value lies in the
interval from zero inclusive to one exclusive, and the was-just phase
classification is a pure function of the quartile the lunation falls
into, with boundaries exactly at one quarter, one half and three
quarters. -/
theorem classifyLunation_eq (l : ℚ) :
    (classifyLunation l = .newMoon ↔ l < 1/4) ∧
    (classifyLunation l = .firstQuarter ↔ 1/4 ≤ l ∧ l < 1/2) ∧
    (classifyLunation l = .fullMoon ↔ 1/2 ≤ l ∧ l < 3/4) ∧
    (classifyLunation l = .lastQuarter ↔ 3/4 ≤ l) := by
  rw [classifyLunation]
  split_ifs with h1 h2 h3 <;>
    refine ⟨?_, ?_, ?_, ?_⟩ <;>
    constructor <;>
    intro h <;>
    first
      | rfl
      | linarith
      | (exact absurd h (by decide))
      | (exact ⟨by linarith, by linarith⟩)

theorem lunation_spec (now prev next : ℚ) (h1 : prev ≤ now) (h2 : now < next) :
    (0 ≤ lunation now prev next ∧ lunation now prev next < 1) ∧
    (classifyLunation (lunation now prev next) = .newMoon ↔
      0 ≤ lunation now prev next ∧ lunation now prev next < 1/4) ∧
    (classifyLunation (lunation now prev next) = .firstQuarter ↔
      1/4 ≤ lunation now prev next ∧ lunation now prev next < 1/2) ∧
    (classifyLunation (lunation now prev next) = .fullMoon ↔
      1/2 ≤ lunation now prev next ∧ lunation now prev next < 3/4) ∧
    (classifyLunation (lunation now prev next) = .lastQuarter ↔
      3/4 ≤ lunation now prev next ∧ lunation now prev next < 1) := by
  have hd : (0:ℚ) < next - prev := by linarith
  have hl0 : 0 ≤ lunation now prev next := div_nonneg (by linarith) hd.le
  have hl1 : lunation now prev next < 1 := (div_lt_one hd).mpr (by linarith)
  obtain ⟨c1, c2, c3, c4⟩ := classifyLunation_eq (lunation now prev next)
  refine ⟨⟨hl0, hl1⟩, ?_, c2, c3, ?_⟩
  · rw [c1]
    exact ⟨fun h => ⟨hl0, h⟩, fun h => h.2⟩
  · rw [c4]
    exact ⟨fun h => ⟨h, hl1⟩, fun h => h.1⟩

/-- Claim C5 witness at a moment coinciding with the previous new moon,
where the lunation is zero and the classification is New Moon. -/
theorem lunation_spec_witness :
    (0:ℚ) ≤ 0 ∧ (0:ℚ) < 1 ∧
    ((0 ≤ lunation 0 0 1 ∧ lunation 0 0 1 < 1) ∧
     (classifyLunation (lunation 0 0 1) = .newMoon ↔
       0 ≤ lunation 0 0 1 ∧ lunation 0 0 1 < 1/4) ∧
     (classifyLunation (lunation 0 0 1) = .firstQuarter ↔
       1/4 ≤ lunation 0 0 1 ∧ lunation 0 0 1 < 1/2) ∧
     (classifyLunation (lunation 0 0 1) = .fullMoon ↔
       1/2 ≤ lunation 0 0 1 ∧ lunation 0 0 1 < 3/4) ∧
     (classifyLunation (lunation 0 0 1) = .lastQuarter ↔
       3/4 ≤ lunation 0 0 1 ∧ lunation 0 0 1 < 1)) :=
  ⟨le_refl 0, by decide, lunation_spec 0 0 1 (le_refl 0) (by decide)⟩

/-- Claim C10: fmt_angle truncates the degree part toward zero and
rounds the minute part to the nearest integer with no carry into the
degree part: at twenty-nine degrees and 59.6 minutes the degree cell is
29 and the minute cell is 60, rendered as 29:60 inside the width-three
degree field, instead of rolling over to 30:00. -/
theorem fmt_angle_no_carry :
    degOf c10_input = 29 ∧ minOf c10_input = 60 ∧
    fmt_angle c10_input = " 29:60" ∧ " 29:60" = " " ++ "29:60" := by
  have hpi : piQ ≠ 0 := by rw [piQ]; norm_num
  have hd : 180 * c10_input / piQ = 4499/150 := by
    rw [c10_input]
    field_simp
    ring
  have hdeg : degOf c10_input = 29 := by
    rw [degOf, hd, pyInt, if_neg (by norm_num)]
    norm_num
  have hmin : minOf c10_input = 60 := by
    rw [minOf, hd, hdeg, pyInt, if_neg (by norm_num)]
    norm_num
  refine ⟨hdeg, hmin, ?_, rfl⟩
  rw [fmt_angle, hdeg, hmin]
  rfl

theorem conjStep_hit (sep : ℚ × ℚ → ℚ × ℚ → ℚ) (bodies : List ConjBody)
    (st : ConjState) (p : Nat × Nat) (hq : sepAt sep bodies p < threshold) :
    conjStep sep bodies st p =
      ⟨st.count + 1,
       st.out ++ (if st.count = 0 then [conjHeader] else []) ++ [conjLineOf sep bodies p]⟩ := by
  rw [conjStep, conjLineOf]
  simp only [if_pos hq]

theorem conjStep_miss (sep : ℚ × ℚ → ℚ × ℚ → ℚ) (bodies : List ConjBody)
    (st : ConjState) (p : Nat × Nat) (hq : ¬ sepAt sep bodies p < threshold) :
    conjStep sep bodies st p = st := by
  rw [conjStep]
  simp only [if_neg hq]

theorem conjFold_pos (sep : ℚ × ℚ → ℚ × ℚ → ℚ) (bodies : List ConjBody)
    (ps : List (Nat × Nat)) :
    ∀ st : ConjState, st.count ≠ 0 →
      (ps.foldl (conjStep sep bodies) st).out =
        st.out ++
          (ps.filter fun p => decide (sepAt sep bodies p < threshold)).map
            (conjLineOf sep bodies) := by
  induction ps with
  | nil => intro st h; simp
  | cons p ps ih =>
    intro st h
    rw [List.foldl_cons]
    by_cases hq : sepAt sep bodies p < threshold
    · have hf : (p :: ps).filter (fun p => decide (sepAt sep bodies p < threshold)) =
          p :: ps.filter (fun p => decide (sepAt sep bodies p < threshold)) := by
        rw [List.filter_cons, if_pos (decide_eq_true hq)]
      rw [conjStep_hit sep bodies st p hq, if_neg h, ih _ (Nat.succ_ne_zero st.count),
        hf, List.map_cons]
      simp
    · have hf : (p :: ps).filter (fun p => decide (sepAt sep bodies p < threshold)) =
          ps.filter (fun p => decide (sepAt sep bodies p < threshold)) := by
        rw [List.filter_cons, if_neg (by simpa using hq)]
      rw [conjStep_miss sep bodies st p hq, ih st h, hf]

theorem conjFold_zero (sep : ℚ × ℚ → ℚ × ℚ → ℚ) (bodies : List ConjBody)
    (ps : List (Nat × Nat)) :
    (ps.foldl (conjStep sep bodies) ⟨0, []⟩).out =
      if (ps.filter fun p => decide (sepAt sep bodies p < threshold)) = [] then []
      else
        conjHeader ::
          (ps.filter fun p => decide (sepAt sep bodies p < threshold)).map
            (conjLineOf sep bodies) := by
  induction ps with
  | nil => simp
  | cons p ps ih =>
    rw [List.foldl_cons]
    by_cases hq : sepAt sep bodies p < threshold
    · have hf : (p :: ps).filter (fun p => decide (sepAt sep bodies p < threshold)) =
          p :: ps.filter (fun p => decide (sepAt sep bodies p < threshold)) := by
        rw [List.filter_cons, if_pos (decide_eq_true hq)]
      rw [conjStep_hit sep bodies ⟨0, []⟩ p hq,
        conjFold_pos sep bodies ps _ (Nat.succ_ne_zero 0),
        hf, if_neg (List.cons_ne_nil p _), List.map_cons]
      simp
    · have hf : (p :: ps).filter (fun p => decide (sepAt sep bodies p < threshold)) =
          ps.filter (fun p => decide (sepAt sep bodies p < threshold)) := by
        rw [List.filter_cons, if_neg (by simpa using hq)]
      rw [conjStep_miss sep bodies ⟨0, []⟩ p hq, ih, hf]

theorem mem_conjPairs (n i j : Nat) : (i, j) ∈ conjPairs n ↔ i < j ∧ j < n := by
  rw [conjPairs]
  simp only [List.mem_flatMap, List.mem_map, List.mem_range]
  constructor
  · rintro ⟨a, ha, b, hb, heq⟩
    obtain ⟨h1, h2⟩ := List.mem_range'_1.mp hb
    cases heq
    omega
  · rintro ⟨hij, hjn⟩
    exact ⟨i, by omega, j, List.mem_range'_1.mpr ⟨by omega, by omega⟩, rfl⟩

/-- Claim C1: for a fixed list of bodies with their azimuth and
altitude already evaluated, and any library separation function, the
conjunction scan emits exactly the pair lines of the index pairs with i
strictly below j whose separation is strictly below the fifteen-degree
threshold, in increasing index order, with the section header emitted
exactly once before the first qualifying pair, and emits nothing at all
when no pair qualifies.  The visited index pairs are exactly the pairs
with i strictly below j, both below the list length, in the order the
two nested loops enumerate them. -/
theorem conjScan_spec (sep : ℚ × ℚ → ℚ × ℚ → ℚ) (bodies : List ConjBody) :
    (conjScan sep bodies =
      if conjQualifying sep bodies = [] then []
      else conjHeader :: (conjQualifying sep bodies).map (conjLineOf sep bodies)) ∧
    (∀ i j : Nat, (i, j) ∈ conjPairs bodies.length ↔ i < j ∧ j < bodies.length) := by
  refine ⟨?_, fun i j => mem_conjPairs bodies.length i j⟩
  rw [conjScan, conjQualifying]
  exact conjFold_zero sep bodies (conjPairs bodies.length)

/-- Claim C1 witness: the scan characterization instantiated at a
concrete two-body list and a concrete separation function. -/
theorem conjScan_spec_witness :
    (conjScan (fun _ _ => 0) [⟨"Sun", 0, 0⟩, ⟨"Moon", 0, 0⟩] =
      if conjQualifying (fun _ _ => 0) [⟨"Sun", 0, 0⟩, ⟨"Moon", 0, 0⟩] = [] then []
      else
        conjHeader ::
          (conjQualifying (fun _ _ => 0) [⟨"Sun", 0, 0⟩, ⟨"Moon", 0, 0⟩]).map
            (conjLineOf (fun _ _ => 0) [⟨"Sun", 0, 0⟩, ⟨"Moon", 0, 0⟩])) ∧
    (∀ i j : Nat,
      (i, j) ∈ conjPairs ([⟨"Sun", 0, 0⟩, ⟨"Moon", 0, 0⟩] : List ConjBody).length ↔
        i < j ∧ j < ([⟨"Sun", 0, 0⟩, ⟨"Moon", 0, 0⟩] : List ConjBody).length) :=
  conjScan_spec (fun _ _ => 0) [⟨"Sun", 0, 0⟩, ⟨"Moon", 0, 0⟩]

/-- Claim C7: comet entries whose display flag is false are skipped
entirely: the loop result is the same as the loop over only the
displayed entries, every string handed to the library parser comes from
a displayed entry, and dropping a non-displayed entry, whatever its
db_info string, changes nothing, so an invalid db_info string on a
non-displayed entry cannot cause a failure. -/
theorem cometLoop_cons_true (readdb : String → Except PyErr BodySnapshot)
    (evalBody : BodySnapshot → Except PyErr VisRow) (e : CometEntry)
    (rest : List CometEntry) (hd : e.display = true) :
    cometLoop readdb evalBody (e :: rest) =
      match readdb e.db_info with
      | .error err => ([e.db_info], .error err)
      | .ok b =>
        match evalBody b with
        | .error err => ([e.db_info], .error err)
        | .ok row =>
          (e.db_info :: (cometLoop readdb evalBody rest).1,
            (cometLoop readdb evalBody rest).2.map (row :: ·)) := by
  rw [cometLoop, if_pos hd]

theorem cometLoop_cons_false (readdb : String → Except PyErr BodySnapshot)
    (evalBody : BodySnapshot → Except PyErr VisRow) (e : CometEntry)
    (rest : List CometEntry) (hd : ¬ e.display = true) :
    cometLoop readdb evalBody (e :: rest) = cometLoop readdb evalBody rest := by
  rw [cometLoop, if_neg hd]

theorem cometLoop_skips (readdb : String → Except PyErr BodySnapshot)
    (evalBody : BodySnapshot → Except PyErr VisRow) :
    (∀ entries : List CometEntry,
      cometLoop readdb evalBody entries =
        cometLoop readdb evalBody (entries.filter (fun e => e.display))) ∧
    (∀ entries : List CometEntry,
      List.Sublist (cometLoop readdb evalBody entries).1
        ((entries.filter (fun e => e.display)).map (fun e => e.db_info))) ∧
    (∀ (e : CometEntry) (entries : List CometEntry), e.display = false →
      cometLoop readdb evalBody (e :: entries) = cometLoop readdb evalBody entries) := by
  have hfilter : ∀ entries : List CometEntry,
      cometLoop readdb evalBody entries =
        cometLoop readdb evalBody (entries.filter (fun e => e.display)) := by
    intro entries
    induction entries with
    | nil => rfl
    | cons e rest ih =>
      by_cases hd : e.display
      · rw [List.filter_cons, if_pos hd,
          cometLoop_cons_true readdb evalBody e rest hd,
          cometLoop_cons_true readdb evalBody e (rest.filter (fun e => e.display)) hd]
        cases hrd : readdb e.db_info with
        | error err => rfl
        | ok b =>
          cases hev : evalBody b with
          | error err => simp only [hev]
          | ok row => simp only [hev, ih]
      · rw [List.filter_cons, if_neg hd, cometLoop_cons_false readdb evalBody e rest hd, ih]
  refine ⟨hfilter, ?_, ?_⟩
  · intro entries
    induction entries with
    | nil => exact List.Sublist.refl []
    | cons e rest ih =>
      by_cases hd : e.display
      · rw [List.filter_cons, if_pos hd, List.map_cons,
          cometLoop_cons_true readdb evalBody e rest hd]
        cases hrd : readdb e.db_info with
        | error err =>
          exact List.Sublist.cons₂ e.db_info (List.nil_sublist _)
        | ok b =>
          cases hev : evalBody b with
          | error err =>
            simp only [hev]
            exact List.Sublist.cons₂ e.db_info (List.nil_sublist _)
          | ok row =>
            simp only [hev]
            exact List.Sublist.cons₂ e.db_info ih
      · rw [List.filter_cons, if_neg hd, cometLoop_cons_false readdb evalBody e rest hd]
        exact ih
  · intro e entries hd
    exact cometLoop_cons_false readdb evalBody e entries (by simp [hd])

/-- Claim C7 witness: the skipping property instantiated at a parser
that rejects every string and a list holding one non-displayed entry
with an invalid db_info string, where the loop still succeeds with no
rows and parses nothing. -/
theorem cometLoop_skips_witness :
    cometLoop (fun s => .error (.valueError s)) (fun _ => .error (.valueError "eval"))
        [⟨false, "not a valid xephem line"⟩] = ([], .ok []) ∧
    ((∀ entries : List CometEntry,
        cometLoop (fun s => .error (.valueError s)) (fun _ => .error (.valueError "eval"))
            entries =
          cometLoop (fun s => .error (.valueError s)) (fun _ => .error (.valueError "eval"))
            (entries.filter (fun e => e.display))) ∧
      (∀ entries : List CometEntry,
        List.Sublist
          (cometLoop (fun s => .error (.valueError s)) (fun _ => .error (.valueError "eval"))
              entries).1
          ((entries.filter (fun e => e.display)).map (fun e => e.db_info))) ∧
      (∀ (e : CometEntry) (entries : List CometEntry), e.display = false →
        cometLoop (fun s => .error (.valueError s)) (fun _ => .error (.valueError "eval"))
            (e :: entries) =
          cometLoop (fun s => .error (.valueError s)) (fun _ => .error (.valueError "eval"))
            entries)) :=
  ⟨rfl, cometLoop_skips (fun s => .error (.valueError s)) (fun _ => .error (.valueError "eval"))⟩

end Ephemeris





